import Mathlib

/-!
Verification of the data-normalization and advisory-report pipeline of the
vriksh repository (src/modsac_1.py).

The Python code is shallowly embedded: pandas DataFrames become column-oriented
tables over rationals, JSON payloads become structures with `Option` fields for
possibly-missing keys, and uncaught Python exceptions become an explicit
`raises` outcome of the embedded function.
-/

namespace Vriksh

/-- A pandas DataFrame as produced by this pipeline: a `date` column of strings
plus named numeric columns.  Numeric values are rationals. -/
structure DataFrame where
  dates : List String
  cols : List (String × List ℚ)
deriving DecidableEq, Repr

/-- Number of rows (`len(df.index)`); in this pipeline the `date` column always
has one entry per row. -/
def DataFrame.nrows (df : DataFrame) : Nat := df.dates.length

/-- `df.empty` in pandas: the table has no rows. -/
def DataFrame.isEmpty (df : DataFrame) : Bool := df.dates.isEmpty

/-- `name in df.columns`. -/
def DataFrame.hasCol (df : DataFrame) (name : String) : Bool :=
  (df.cols.lookup name).isSome

/-- `df[name]`, defaulting to the empty column when absent (the embedded
functions only use this under a `hasCol` guard or a well-formedness
hypothesis). -/
def DataFrame.getColD (df : DataFrame) (name : String) : List ℚ :=
  (df.cols.lookup name).getD []

/-- Well-formedness: every column is index-aligned with the date column, as is
the case for every DataFrame this pipeline constructs. -/
def DataFrame.WF (df : DataFrame) : Prop :=
  ∀ c ∈ df.cols, c.2.length = df.dates.length

instance (df : DataFrame) : Decidable df.WF := by
  unfold DataFrame.WF; infer_instance

/-- The dict returned by `analyze_extremes`: keys `heatwave_days`,
`drought_days`, `flood_days`. -/
structure ExtremeCounts where
  heatwave_days : Nat
  drought_days : Nat
  flood_days : Nat
deriving DecidableEq, Repr

/-- `analyze_extremes(df)` (src/modsac_1.py lines 79-89): counts days over
fixed thresholds when the table is present, non-empty and has the `tmax` and
`rain` columns; otherwise returns all-zero counts. -/
def analyze_extremes (df : Option DataFrame) : ExtremeCounts :=
  match df with
  | some d =>
    if ¬ d.isEmpty ∧ d.hasCol "tmax" ∧ d.hasCol "rain" then
      { heatwave_days := (d.getColD "tmax").countP (fun x => decide (40 < x))
        drought_days := (d.getColD "rain").countP (fun x => decide (x < 1))
        flood_days := (d.getColD "rain").countP (fun x => decide (100 < x)) }
    else
      { heatwave_days := 0, drought_days := 0, flood_days := 0 }
  | none => { heatwave_days := 0, drought_days := 0, flood_days := 0 }

/-- Mean of a pandas numeric column (`Series.mean()`): sum divided by length. -/
def meanQ (l : List ℚ) : ℚ := l.sum / l.length

/-- `max(vals)` of a non-empty Python list (the value on `[]` is irrelevant:
the source only reaches `max` after a successful division by `len`). -/
def maxQ (l : List ℚ) : ℚ :=
  match l with
  | [] => 0
  | h :: t => t.foldl max h

/-- The `daily` object of a flood payload; a missing key is `none`. -/
structure RawFloodDaily where
  time : Option (List String)
  river_discharge : Option (List ℚ)
deriving DecidableEq, Repr

/-- A parsed flood JSON object as it flows out of `fetch_flood` and into
`generate_report`: either an `{"error": msg}` dict or a payload that may carry
a `daily` object. -/
structure FloodData where
  error : Option String
  daily : Option RawFloodDaily
deriving DecidableEq, Repr

/-- Outcome of the single HTTP interaction inside `fetch_flood`:
either `requests.get` itself raises (timeout, connection error), or a response
arrives with a status code and a body (`none` = `resp.json()` raises because
the body is malformed JSON). -/
inductive FloodHttp where
  | requestError (msg : String)
  | response (status : Nat) (body : Option FloodData)
deriving DecidableEq, Repr

/-- `fetch_flood` (src/modsac_1.py lines 61-75).  A 404 status yields the
distinguished `{"error": "No flood model available for this region"}` dict;
`raise_for_status` turns any other 4xx/5xx status into an exception, which the
enclosing `except` converts (like every other exception) into a generic
`{"error": "Flood API failed: ..."}` dict.  No exception escapes. -/
def fetch_flood (h : FloodHttp) : FloodData :=
  match h with
  | .requestError msg => ⟨some ("Flood API failed: " ++ msg), none⟩
  | .response status body =>
    if status = 404 then
      ⟨some "No flood model available for this region", none⟩
    else if 400 ≤ status ∧ status < 600 then
      ⟨some ("Flood API failed: " ++ ("HTTPError " ++ toString status)), none⟩
    else
      match body with
      | some j => j
      | none => ⟨some ("Flood API failed: " ++ "JSONDecodeError"), none⟩

/-- One appended report line, keyed by which `report.append(...)` in
`generate_report` produced it; numeric payloads carry the exact value whose
1-decimal rendering the Python line interpolates. -/
inductive ReportLine where
  | title
  | regionLine (r : String)
  | periodLine (s e : String)
  | histHeader
  | histAvgTemp (v : ℚ)
  | histTotalRain (v : ℚ)
  | fcHeader
  | fcAvgTemp (v : ℚ)
  | fcTotalRain (v : ℚ)
  | extremesHeader
  | heatwaveLine (n : Nat)
  | droughtLine (n : Nat)
  | heavyRainLine (n : Nat)
  | floodHeader
  | floodAvg (v : ℚ)
  | floodMax (v : ℚ)
  | floodHighRisk
  | floodModerateRisk
  | floodNoRisk
  | blank
  | floodUnavailable
  | cropRec (crop : String)
  | adviceIrrigation
  | adviceHeatSeeds
  | adviceDrainage
deriving DecidableEq, Repr

/-- Lines 94-96: the report header, appended unconditionally. -/
def headerSection (region startDate endDate : String) : List ReportLine :=
  [.title, .regionLine region, .periodLine startDate endDate]

/-- Lines 98-101: historical summary, appended only when `weather_df` is
neither `None` nor empty. -/
def histSection (weather_df : Option DataFrame) : List ReportLine :=
  match weather_df with
  | none => []
  | some df =>
    if ¬ df.isEmpty then
      [.histHeader, .histAvgTemp (meanQ (df.getColD "tmax")),
       .histTotalRain ((df.getColD "rain").sum)]
    else []

/-- Lines 103-106: forecast summary, appended only when `forecast_df` is
neither `None` nor empty. -/
def fcSection (forecast_df : Option DataFrame) : List ReportLine :=
  match forecast_df with
  | none => []
  | some df =>
    if ¬ df.isEmpty then
      [.fcHeader, .fcAvgTemp (meanQ (df.getColD "tmax")),
       .fcTotalRain ((df.getColD "rain").sum)]
    else []

/-- Lines 108-111: extreme-event summary, appended unconditionally
(`extremes.get(key, 0)` always finds the key in the dict `analyze_extremes`
builds). -/
def extremesSection (ex : ExtremeCounts) : List ReportLine :=
  [.extremesHeader, .heatwaveLine ex.heatwave_days,
   .droughtLine ex.drought_days, .heavyRainLine ex.flood_days]

/-- Lines 114-130: the flood-risk section.  Skipped when `flood_data` is falsy
or has no `"daily"` key; once entered, a missing `river_discharge` key raises
`KeyError` and an empty list raises `ZeroDivisionError` in the average, both
caught by the local `except` which appends the single data-unavailable line
(nothing is appended before that point: all three computed values precede the
first `append` of the `try` block). -/
def floodSection (flood_data : Option FloodData) : List ReportLine :=
  match flood_data with
  | none => []
  | some fd =>
    match fd.daily with
    | none => []
    | some d =>
      match d.river_discharge with
      | none => [.floodUnavailable]
      | some vals =>
        if vals.length = 0 then [.floodUnavailable]
        else
          [.floodHeader, .floodAvg (vals.sum / vals.length), .floodMax (maxQ vals)] ++
          (if maxQ vals > 5000 then [.floodHighRisk]
           else if maxQ vals > 2000 then [.floodModerateRisk]
           else [.floodNoRisk]) ++ [.blank]

/-- Lines 132-137: crop recommendation, appended only when `weather_df` is
neither `None` nor empty. -/
def cropSection (weather_df : Option DataFrame) : List ReportLine :=
  match weather_df with
  | none => []
  | some df =>
    if ¬ df.isEmpty then
      [.cropRec (if meanQ (df.getColD "rain") > 5 ∧ meanQ (df.getColD "tmax") > 25
                 then "Rice" else "Wheat")]
    else []

/-- Lines 140-145: the three independently gated advisory notes. -/
def adviceSection (ex : ExtremeCounts) : List ReportLine :=
  (if ex.drought_days > 10 then [.adviceIrrigation] else []) ++
  (if ex.heatwave_days > 3 then [.adviceHeatSeeds] else []) ++
  (if ex.flood_days > 2 then [.adviceDrainage] else [])

/-- `generate_report` (src/modsac_1.py lines 92-147): the report list in the
exact order the Python `report.append` calls run. -/
def generate_report (region startDate endDate : String)
    (weather_df forecast_df : Option DataFrame) (ex : ExtremeCounts)
    (flood_data : Option FloodData) : List ReportLine :=
  headerSection region startDate endDate ++
  histSection weather_df ++
  fcSection forecast_df ++
  extremesSection ex ++
  floodSection flood_data ++
  cropSection weather_df ++
  adviceSection ex

/-- The `daily` object of a raw weather payload; a missing key is `none`. -/
structure RawDaily where
  time : Option (List String)
  temperature_2m_max : Option (List ℚ)
  temperature_2m_min : Option (List ℚ)
  precipitation_sum : Option (List ℚ)
deriving DecidableEq, Repr

/-- A raw weather JSON object.  `otherKeys` records the remaining top-level
keys, so Python truthiness of the dict (`if weather_data:`) is expressible:
a dict is truthy iff it has at least one key. -/
structure RawWeather where
  daily : Option RawDaily
  otherKeys : List String
deriving DecidableEq, Repr

/-- `bool(weather_data)` for the dict-or-`None` value `fetch_weather`
returns. -/
def RawWeather.truthy (w : RawWeather) : Bool :=
  w.daily.isSome || !w.otherKeys.isEmpty

/-- Outcome of the inline weather_df construction: the `None` sentinel, a
constructed DataFrame, or an uncaught Python exception. -/
inductive NormOutcome where
  | noneSentinel
  | table (df : DataFrame)
  | raises (msg : String)
deriving DecidableEq, Repr

/-- The inline normalizer (src/modsac_1.py lines 183-191, likewise 222-230 for
the forecast): `weather_df` starts as `None`; when the payload is truthy the
code indexes `weather_data["daily"]` and its four arrays with plain `[...]`
lookups (a missing key raises `KeyError`) and hands them to `pd.DataFrame`,
which raises `ValueError` when the arrays do not all have the same length.
No `try` surrounds this block. -/
def build_weather_df (weather_data : Option RawWeather) : NormOutcome :=
  match weather_data with
  | none => .noneSentinel
  | some w =>
    if w.truthy then
      match w.daily with
      | none => .raises "KeyError: daily"
      | some d =>
        match d.time, d.temperature_2m_max, d.temperature_2m_min, d.precipitation_sum with
        | some ts, some tmaxs, some tmins, some rains =>
          if tmaxs.length = ts.length ∧ tmins.length = ts.length ∧ rains.length = ts.length
          then .table ⟨ts, [("tmax", tmaxs), ("tmin", tmins), ("rain", rains)]⟩
          else .raises "ValueError: All arrays must be of the same length"
        | none, _, _, _ => .raises "KeyError: time"
        | _, none, _, _ => .raises "KeyError: temperature_2m_max"
        | _, _, none, _ => .raises "KeyError: temperature_2m_min"
        | _, _, _, none => .raises "KeyError: precipitation_sum"
    else .noneSentinel

/-- Which report section owns each kind of line (header 0, history 1,
forecast 2, extremes 3, flood 4, crop 5, advice 6). -/
def sectionOf : ReportLine → Nat
  | .title | .regionLine _ | .periodLine _ _ => 0
  | .histHeader | .histAvgTemp _ | .histTotalRain _ => 1
  | .fcHeader | .fcAvgTemp _ | .fcTotalRain _ => 2
  | .extremesHeader | .heatwaveLine _ | .droughtLine _ | .heavyRainLine _ => 3
  | .floodHeader | .floodAvg _ | .floodMax _ | .floodHighRisk | .floodModerateRisk
  | .floodNoRisk | .blank | .floodUnavailable => 4
  | .cropRec _ => 5
  | .adviceIrrigation | .adviceHeatSeeds | .adviceDrainage => 6

/-- Whether a normalization outcome is an uncaught exception. -/
def NormOutcome.isRaises : NormOutcome → Bool
  | .raises _ => true
  | _ => false

/-- The shape every weather table reaching `generate_report` has in the
program (the tables built from the `daily` arrays always carry `tmax` and
`rain` columns): absent, or with both columns present.  Python's unguarded
`weather_df["tmax"]` lookups in the report assume exactly this. -/
def WeatherShaped : Option DataFrame → Prop
  | none => True
  | some df => df.hasCol "tmax" = true ∧ df.hasCol "rain" = true

/-! ### Helper lemmas -/

theorem lookup_mem {l : List (String × List ℚ)} {k : String} {v : List ℚ}
    (h : l.lookup k = some v) : (k, v) ∈ l := by
  obtain ⟨l₁, l₂, rfl, -⟩ := List.lookup_eq_some_iff.mp h
  simp

/-- Under well-formedness, a present column has one entry per row. -/
theorem getColD_length_of_hasCol (df : DataFrame) (hwf : df.WF) (name : String)
    (h : df.hasCol name = true) : (df.getColD name).length = df.nrows := by
  unfold DataFrame.hasCol at h
  unfold DataFrame.getColD
  cases hc : df.cols.lookup name with
  | none => rw [hc] at h; simp at h
  | some v =>
    exact hwf (name, v) (lookup_mem hc)

theorem sectionOf_mem_header {x : ReportLine} {r s e : String}
    (h : x ∈ headerSection r s e) : sectionOf x = 0 := by
  simp [headerSection] at h
  rcases h with rfl | rfl | rfl <;> rfl

theorem sectionOf_mem_hist {x : ReportLine} {w : Option DataFrame}
    (h : x ∈ histSection w) : sectionOf x = 1 := by
  rcases w with _ | df
  · simp [histSection] at h
  · simp [histSection] at h
    rcases h.2 with rfl | rfl | rfl <;> rfl

theorem sectionOf_mem_fc {x : ReportLine} {fc : Option DataFrame}
    (h : x ∈ fcSection fc) : sectionOf x = 2 := by
  rcases fc with _ | df
  · simp [fcSection] at h
  · simp [fcSection] at h
    rcases h.2 with rfl | rfl | rfl <;> rfl

theorem sectionOf_mem_extremes {x : ReportLine} {ex : ExtremeCounts}
    (h : x ∈ extremesSection ex) : sectionOf x = 3 := by
  simp [extremesSection] at h
  rcases h with rfl | rfl | rfl | rfl <;> rfl

theorem sectionOf_mem_flood {x : ReportLine} {fd : Option FloodData}
    (h : x ∈ floodSection fd) : sectionOf x = 4 := by
  rcases fd with _ | ⟨err, daily⟩
  · simp [floodSection] at h
  · rcases daily with _ | ⟨time, rd⟩
    · simp [floodSection] at h
    · rcases rd with _ | vals
      · simp [floodSection] at h
        subst h; rfl
      · by_cases hnil : vals = []
        · simp [floodSection, hnil] at h
          subst h; rfl
        · by_cases h5 : (5000:ℚ) < maxQ vals
          · simp [floodSection, hnil, h5] at h
            rcases h with rfl | rfl | rfl | rfl | rfl <;> rfl
          · by_cases h2 : (2000:ℚ) < maxQ vals
            · simp [floodSection, hnil, h5, h2] at h
              rcases h with rfl | rfl | rfl | rfl | rfl <;> rfl
            · simp [floodSection, hnil, h5, h2] at h
              rcases h with rfl | rfl | rfl | rfl | rfl <;> rfl

theorem sectionOf_mem_crop {x : ReportLine} {w : Option DataFrame}
    (h : x ∈ cropSection w) : sectionOf x = 5 := by
  rcases w with _ | df
  · simp [cropSection] at h
  · simp [cropSection] at h
    obtain ⟨-, rfl⟩ := h
    rfl

theorem sectionOf_mem_advice {x : ReportLine} {ex : ExtremeCounts}
    (h : x ∈ adviceSection ex) : sectionOf x = 6 := by
  unfold adviceSection at h
  simp only [List.mem_append] at h
  rcases h with (h | h) | h <;> split at h <;> simp at h <;> subst h <;> rfl

/-- Membership in a report decomposes into membership in one of its seven
sections. -/
theorem mem_report_cases {x : ReportLine} {region s e : String}
    {w fc : Option DataFrame} {ex : ExtremeCounts} {fd : Option FloodData} :
    x ∈ generate_report region s e w fc ex fd ↔
      x ∈ headerSection region s e ∨ x ∈ histSection w ∨ x ∈ fcSection fc ∨
      x ∈ extremesSection ex ∨ x ∈ floodSection fd ∨ x ∈ cropSection w ∨
      x ∈ adviceSection ex := by
  simp [generate_report, List.mem_append, or_assoc]

/-- A flood-class line occurs in the report exactly when it occurs in the
flood section. -/
theorem mem_report_iff_mem_flood (x : ReportLine) (hx : sectionOf x = 4)
    {region s e : String} {w fc : Option DataFrame} {ex : ExtremeCounts}
    {fd : Option FloodData} :
    x ∈ generate_report region s e w fc ex fd ↔ x ∈ floodSection fd := by
  rw [mem_report_cases]
  constructor
  · rintro (h | h | h | h | h | h | h)
    · exact absurd (hx.symm.trans (sectionOf_mem_header h)) (by decide)
    · exact absurd (hx.symm.trans (sectionOf_mem_hist h)) (by decide)
    · exact absurd (hx.symm.trans (sectionOf_mem_fc h)) (by decide)
    · exact absurd (hx.symm.trans (sectionOf_mem_extremes h)) (by decide)
    · exact h
    · exact absurd (hx.symm.trans (sectionOf_mem_crop h)) (by decide)
    · exact absurd (hx.symm.trans (sectionOf_mem_advice h)) (by decide)
  · exact fun h => Or.inr (Or.inr (Or.inr (Or.inr (Or.inl h))))

/-- A crop-class line occurs in the report exactly when it occurs in the crop
section. -/
theorem mem_report_iff_mem_crop (x : ReportLine) (hx : sectionOf x = 5)
    {region s e : String} {w fc : Option DataFrame} {ex : ExtremeCounts}
    {fd : Option FloodData} :
    x ∈ generate_report region s e w fc ex fd ↔ x ∈ cropSection w := by
  rw [mem_report_cases]
  constructor
  · rintro (h | h | h | h | h | h | h)
    · exact absurd (hx.symm.trans (sectionOf_mem_header h)) (by decide)
    · exact absurd (hx.symm.trans (sectionOf_mem_hist h)) (by decide)
    · exact absurd (hx.symm.trans (sectionOf_mem_fc h)) (by decide)
    · exact absurd (hx.symm.trans (sectionOf_mem_extremes h)) (by decide)
    · exact absurd (hx.symm.trans (sectionOf_mem_flood h)) (by decide)
    · exact h
    · exact absurd (hx.symm.trans (sectionOf_mem_advice h)) (by decide)
  · exact fun h => Or.inr (Or.inr (Or.inr (Or.inr (Or.inr (Or.inl h)))))

/-- A history-class line occurs in the report exactly when it occurs in the
historical-summary section. -/
theorem mem_report_iff_mem_hist (x : ReportLine) (hx : sectionOf x = 1)
    {region s e : String} {w fc : Option DataFrame} {ex : ExtremeCounts}
    {fd : Option FloodData} :
    x ∈ generate_report region s e w fc ex fd ↔ x ∈ histSection w := by
  rw [mem_report_cases]
  constructor
  · rintro (h | h | h | h | h | h | h)
    · exact absurd (hx.symm.trans (sectionOf_mem_header h)) (by decide)
    · exact h
    · exact absurd (hx.symm.trans (sectionOf_mem_fc h)) (by decide)
    · exact absurd (hx.symm.trans (sectionOf_mem_extremes h)) (by decide)
    · exact absurd (hx.symm.trans (sectionOf_mem_flood h)) (by decide)
    · exact absurd (hx.symm.trans (sectionOf_mem_crop h)) (by decide)
    · exact absurd (hx.symm.trans (sectionOf_mem_advice h)) (by decide)
  · exact fun h => Or.inr (Or.inl h)

/-! ### Claim theorems -/

/-- C1: for every well-formed weather table containing `tmax` and `rain`
columns, `analyze_extremes` returns exactly the count of rows with
`tmax > 40`, the count of rows with `rain < 1`, and the count of rows with
`rain > 100`. -/
theorem analyze_extremes_exact_counts (df : DataFrame) (hwf : df.WF)
    (htm : df.hasCol "tmax" = true) (hr : df.hasCol "rain" = true) :
    analyze_extremes (some df) =
      { heatwave_days := (df.getColD "tmax").countP (fun x => decide (40 < x)),
        drought_days := (df.getColD "rain").countP (fun x => decide (x < 1)),
        flood_days := (df.getColD "rain").countP (fun x => decide (100 < x)) } := by
  unfold analyze_extremes
  by_cases he : df.isEmpty
  · have hn : df.nrows = 0 := by
      unfold DataFrame.nrows
      unfold DataFrame.isEmpty at he
      simpa [List.isEmpty_iff] using he
    have h1 : (df.getColD "tmax") = [] :=
      List.length_eq_zero.mp ((getColD_length_of_hasCol df hwf _ htm).trans hn)
    have h2 : (df.getColD "rain") = [] :=
      List.length_eq_zero.mp ((getColD_length_of_hasCol df hwf _ hr).trans hn)
    simp [he, h1, h2]
  · simp [he, htm, hr]

theorem analyze_extremes_exact_counts_witness :
    ∃ df : DataFrame, df.WF ∧ df.hasCol "tmax" = true ∧ df.hasCol "rain" = true ∧
      analyze_extremes (some df) =
        { heatwave_days := (df.getColD "tmax").countP (fun x => decide (40 < x)),
          drought_days := (df.getColD "rain").countP (fun x => decide (x < 1)),
          flood_days := (df.getColD "rain").countP (fun x => decide (100 < x)) } := by
  refine ⟨⟨["2023-01-01", "2023-01-02", "2023-01-03"],
    [("tmax", [41, 38, 20]), ("tmin", [10, 11, 12]), ("rain", [1/2, 120, 2])]⟩,
    ?_, rfl, rfl, ?_⟩
  · intro c hc
    fin_cases hc <;> rfl
  · exact analyze_extremes_exact_counts _ (by intro c hc; fin_cases hc <;> rfl) rfl rfl

/-- C9: `analyze_extremes` returns all-zero counts whenever its input is
`None`, an empty table, or a table missing the `tmax` or `rain` column. -/
theorem analyze_extremes_degenerate (arg : Option DataFrame)
    (h : arg = none ∨ ∃ df, arg = some df ∧
      (df.isEmpty = true ∨ df.hasCol "tmax" = false ∨ df.hasCol "rain" = false)) :
    analyze_extremes arg = ⟨0, 0, 0⟩ := by
  rcases h with h | ⟨df, rfl, hcase⟩
  · subst h; rfl
  · unfold analyze_extremes
    rcases hcase with h1 | h1 | h1 <;> simp [h1]

theorem analyze_extremes_degenerate_witness :
    analyze_extremes none = ⟨0, 0, 0⟩ ∧
      analyze_extremes (some ⟨[], [("tmax", []), ("tmin", []), ("rain", [])]⟩) = ⟨0, 0, 0⟩ ∧
      analyze_extremes (some ⟨["2023-01-01"], [("discharge", [7])]⟩) = ⟨0, 0, 0⟩ :=
  ⟨analyze_extremes_degenerate none (Or.inl rfl),
   analyze_extremes_degenerate _ (Or.inr ⟨_, rfl, Or.inl (by decide)⟩),
   analyze_extremes_degenerate _ (Or.inr ⟨_, rfl, Or.inr (Or.inl (by decide))⟩)⟩

/-- C10: for every well-formed weather table, each count returned by
`analyze_extremes` is at most the number of rows, and drought and heavy-rain
counts together never exceed the number of rows, because `rain < 1` and
`rain > 100` are mutually exclusive on any row. -/
theorem analyze_extremes_bounds (df : DataFrame) (hwf : df.WF) :
    (analyze_extremes (some df)).heatwave_days ≤ df.nrows ∧
    (analyze_extremes (some df)).drought_days ≤ df.nrows ∧
    (analyze_extremes (some df)).flood_days ≤ df.nrows ∧
    (analyze_extremes (some df)).drought_days + (analyze_extremes (some df)).flood_days
      ≤ df.nrows := by
  simp only [analyze_extremes]
  by_cases hg : ¬ df.isEmpty = true ∧ df.hasCol "tmax" = true ∧ df.hasCol "rain" = true
  · obtain ⟨he, htm, hr⟩ := hg
    rw [if_pos ⟨he, htm, hr⟩]
    have ltm := getColD_length_of_hasCol df hwf "tmax" htm
    have lr := getColD_length_of_hasCol df hwf "rain" hr
    refine ⟨?_, ?_, ?_, ?_⟩
    · exact ltm ▸ List.countP_le_length _
    · exact lr ▸ List.countP_le_length _
    · exact lr ▸ List.countP_le_length _
    · rw [← lr, List.length_eq_countP_add_countP (fun x : ℚ => decide (x < 1))]
      refine Nat.add_le_add_left (List.countP_mono_left ?_) _
      intro x _ hx
      have h100 : (100:ℚ) < x := of_decide_eq_true hx
      have hnot : ¬ (x < 1) := fun hlt => absurd h100 (lt_asymm (lt_trans hlt (by norm_num)))
      simpa using hnot
  · simp only [if_neg hg]
    exact ⟨Nat.zero_le _, Nat.zero_le _, Nat.zero_le _, Nat.zero_le _⟩

theorem analyze_extremes_bounds_witness :
    (analyze_extremes (some ⟨["2023-01-01", "2023-01-02"],
        [("tmax", [41, 20]), ("tmin", [10, 11]), ("rain", [0, 120])]⟩)).drought_days +
      (analyze_extremes (some ⟨["2023-01-01", "2023-01-02"],
        [("tmax", [41, 20]), ("tmin", [10, 11]), ("rain", [0, 120])]⟩)).flood_days ≤ 2 :=
  (analyze_extremes_bounds ⟨["2023-01-01", "2023-01-02"],
      [("tmax", [41, 20]), ("tmin", [10, 11]), ("rain", [0, 120])]⟩
    (by intro c hc; fin_cases hc <;> rfl)).2.2.2

/-- The flood section on a payload with a usable (present, non-empty)
discharge series. -/
theorem floodSection_usable (f : FloodData) (d : RawFloodDaily) (vals : List ℚ)
    (hd : f.daily = some d) (hv : d.river_discharge = some vals) (hne : vals ≠ []) :
    floodSection (some f) =
      [.floodHeader, .floodAvg (vals.sum / vals.length), .floodMax (maxQ vals)] ++
      (if maxQ vals > 5000 then [.floodHighRisk]
       else if maxQ vals > 2000 then [.floodModerateRisk]
       else [.floodNoRisk]) ++ [.blank] := by
  have h0 : ¬ vals.length = 0 := fun h => hne (List.length_eq_zero.mp h)
  simp [floodSection, hd, hv, h0]

/-- C2: for every flood payload with a usable discharge series, the flood-risk
tier of the generated report is determined solely by the maximum discharge,
with mutually exclusive tiers evaluated high-to-low: max > 5000 puts exactly
the high-risk line in the report, 2000 < max ≤ 5000 exactly the moderate-risk
line, and max ≤ 2000 exactly the no-significant-risk line. -/
theorem flood_risk_tiering (region s e : String) (w fc : Option DataFrame)
    (hw : WeatherShaped w) (hf : WeatherShaped fc)
    (ex : ExtremeCounts) (f : FloodData) (d : RawFloodDaily) (vals : List ℚ)
    (hd : f.daily = some d) (hv : d.river_discharge = some vals) (hne : vals ≠ [])
    (R : List ReportLine) (hR : R = generate_report region s e w fc ex (some f)) :
    (5000 < maxQ vals →
      ReportLine.floodHighRisk ∈ R ∧ ReportLine.floodModerateRisk ∉ R ∧
        ReportLine.floodNoRisk ∉ R) ∧
    (2000 < maxQ vals → maxQ vals ≤ 5000 →
      ReportLine.floodModerateRisk ∈ R ∧ ReportLine.floodHighRisk ∉ R ∧
        ReportLine.floodNoRisk ∉ R) ∧
    (maxQ vals ≤ 2000 →
      ReportLine.floodNoRisk ∈ R ∧ ReportLine.floodHighRisk ∉ R ∧
        ReportLine.floodModerateRisk ∉ R) := by
  subst hR
  have hfs := floodSection_usable f d vals hd hv hne
  refine ⟨fun h5 => ?_, fun h2 h5 => ?_, fun h2 => ?_⟩
  · rw [if_pos h5] at hfs
    refine ⟨?_, ?_, ?_⟩
    · rw [mem_report_iff_mem_flood ReportLine.floodHighRisk rfl, hfs]
      simp
    · rw [mem_report_iff_mem_flood ReportLine.floodModerateRisk rfl, hfs]
      simp
    · rw [mem_report_iff_mem_flood ReportLine.floodNoRisk rfl, hfs]
      simp
  · rw [if_neg (not_lt.mpr h5), if_pos h2] at hfs
    refine ⟨?_, ?_, ?_⟩
    · rw [mem_report_iff_mem_flood ReportLine.floodModerateRisk rfl, hfs]
      simp
    · rw [mem_report_iff_mem_flood ReportLine.floodHighRisk rfl, hfs]
      simp
    · rw [mem_report_iff_mem_flood ReportLine.floodNoRisk rfl, hfs]
      simp
  · rw [if_neg (not_lt.mpr (le_trans h2 (by norm_num))), if_neg (not_lt.mpr h2)] at hfs
    refine ⟨?_, ?_, ?_⟩
    · rw [mem_report_iff_mem_flood ReportLine.floodNoRisk rfl, hfs]
      simp
    · rw [mem_report_iff_mem_flood ReportLine.floodHighRisk rfl, hfs]
      simp
    · rw [mem_report_iff_mem_flood ReportLine.floodModerateRisk rfl, hfs]
      simp

theorem flood_risk_tiering_witness :
    ReportLine.floodHighRisk ∈ generate_report "Delta Farm" "2023-01-01" "2023-01-03"
        none none ⟨0, 0, 0⟩
        (some ⟨none, some ⟨some ["2023-01-01", "2023-01-02", "2023-01-03"],
          some [100, 200, 5200]⟩⟩) ∧
    ReportLine.floodNoRisk ∉ generate_report "Delta Farm" "2023-01-01" "2023-01-03"
        none none ⟨0, 0, 0⟩
        (some ⟨none, some ⟨some ["2023-01-01", "2023-01-02", "2023-01-03"],
          some [100, 200, 5200]⟩⟩) :=
  have h := flood_risk_tiering "Delta Farm" "2023-01-01" "2023-01-03" none none
    trivial trivial ⟨0, 0, 0⟩
    ⟨none, some ⟨some ["2023-01-01", "2023-01-02", "2023-01-03"], some [100, 200, 5200]⟩⟩
    ⟨some ["2023-01-01", "2023-01-02", "2023-01-03"], some [100, 200, 5200]⟩
    [100, 200, 5200] rfl rfl (by decide) _ rfl
  ⟨(h.1 (by decide)).1, (h.1 (by decide)).2.2⟩

/-- The crop section on a non-empty historical table. -/
theorem cropSection_nonempty (df : DataFrame) (hne : df.isEmpty = false) :
    cropSection (some df) =
      [.cropRec (if meanQ (df.getColD "rain") > 5 ∧ meanQ (df.getColD "tmax") > 25
                 then "Rice" else "Wheat")] := by
  simp [cropSection, hne]

/-- C3: for every non-empty historical weather table, the report's crop
recommendation is "Rice" exactly when mean rain > 5 and mean tmax > 25,
"Wheat" in every other case, and no other crop is ever recommended. -/
theorem crop_recommendation_rule (region s e : String) (df : DataFrame)
    (fc : Option DataFrame) (ex : ExtremeCounts) (fd : Option FloodData)
    (hne : df.isEmpty = false)
    (htm : df.hasCol "tmax" = true) (hr : df.hasCol "rain" = true)
    (hf : WeatherShaped fc)
    (R : List ReportLine) (hR : R = generate_report region s e (some df) fc ex fd) :
    (ReportLine.cropRec "Rice" ∈ R ↔
        5 < meanQ (df.getColD "rain") ∧ 25 < meanQ (df.getColD "tmax")) ∧
    (ReportLine.cropRec "Wheat" ∈ R ↔
        ¬ (5 < meanQ (df.getColD "rain") ∧ 25 < meanQ (df.getColD "tmax"))) ∧
    (∀ c, ReportLine.cropRec c ∈ R → c = "Rice" ∨ c = "Wheat") := by
  subst hR
  have hcs := cropSection_nonempty df hne
  by_cases hc : 5 < meanQ (df.getColD "rain") ∧ 25 < meanQ (df.getColD "tmax")
  · rw [if_pos hc] at hcs
    refine ⟨?_, ?_, fun c hcm => ?_⟩
    · rw [mem_report_iff_mem_crop (ReportLine.cropRec "Rice") rfl, hcs]
      exact iff_of_true (by decide) hc
    · rw [mem_report_iff_mem_crop (ReportLine.cropRec "Wheat") rfl, hcs]
      exact iff_of_false (by decide) (not_not_intro hc)
    · rw [mem_report_iff_mem_crop (ReportLine.cropRec c) rfl, hcs,
        List.mem_singleton] at hcm
      exact Or.inl (by injection hcm)
  · rw [if_neg hc] at hcs
    refine ⟨?_, ?_, fun c hcm => ?_⟩
    · rw [mem_report_iff_mem_crop (ReportLine.cropRec "Rice") rfl, hcs]
      exact iff_of_false (by decide) hc
    · rw [mem_report_iff_mem_crop (ReportLine.cropRec "Wheat") rfl, hcs]
      exact iff_of_true (by decide) hc
    · rw [mem_report_iff_mem_crop (ReportLine.cropRec c) rfl, hcs,
        List.mem_singleton] at hcm
      exact Or.inr (by injection hcm)

theorem crop_recommendation_rule_witness :
    ReportLine.cropRec "Rice" ∈ generate_report "R" "2023-01-01" "2023-01-02"
      (some ⟨["2023-01-01", "2023-01-02"],
        [("tmax", [26, 26]), ("tmin", [10, 10]), ("rain", [6, 6])]⟩)
      none ⟨0, 0, 0⟩ none :=
  ((crop_recommendation_rule "R" "2023-01-01" "2023-01-02"
      ⟨["2023-01-01", "2023-01-02"],
        [("tmax", [26, 26]), ("tmin", [10, 10]), ("rain", [6, 6])]⟩
      none ⟨0, 0, 0⟩ none rfl rfl rfl trivial _ rfl).1).mpr
    (by
      refine ⟨?_, ?_⟩
      · show (5:ℚ) < meanQ [6, 6]
        norm_num [meanQ, List.sum_cons, List.sum_nil]
      · show (25:ℚ) < meanQ [26, 26]
        norm_num [meanQ, List.sum_cons, List.sum_nil])

/-- The flood section degrades to the single data-unavailable line when the
`daily` object is present but its discharge series is missing or empty. -/
theorem floodSection_unavailable (f : FloodData) (d : RawFloodDaily)
    (hd : f.daily = some d)
    (hu : d.river_discharge = none ∨ d.river_discharge = some []) :
    floodSection (some f) = [.floodUnavailable] := by
  rcases hu with hu | hu <;> simp [floodSection, hd, hu]

/-- C5: for every flood payload with a `daily` key whose discharge statistics
cannot be computed, the report contains a single data-unavailable flood line
and is otherwise exactly the report that omitting the flood data would
produce. -/
theorem flood_unavailable_degrades (region s e : String) (w fc : Option DataFrame)
    (hw : WeatherShaped w) (hf : WeatherShaped fc)
    (ex : ExtremeCounts) (f : FloodData) (d : RawFloodDaily)
    (hd : f.daily = some d)
    (hu : d.river_discharge = none ∨ d.river_discharge = some []) :
    ∃ pre post,
      generate_report region s e w fc ex (some f) =
        pre ++ ReportLine.floodUnavailable :: post ∧
      generate_report region s e w fc ex none = pre ++ post ∧
      ReportLine.floodUnavailable ∉ pre ∧ ReportLine.floodUnavailable ∉ post := by
  refine ⟨headerSection region s e ++ histSection w ++ fcSection fc ++ extremesSection ex,
    cropSection w ++ adviceSection ex, ?_, ?_, ?_, ?_⟩
  · rw [generate_report, floodSection_unavailable f d hd hu]
    simp [List.append_assoc]
  · rw [generate_report]
    simp [floodSection, List.append_assoc]
  · intro hm
    simp only [List.mem_append] at hm
    rcases hm with ((hm | hm) | hm) | hm
    · exact absurd (sectionOf_mem_header hm) (by decide)
    · exact absurd (sectionOf_mem_hist hm) (by decide)
    · exact absurd (sectionOf_mem_fc hm) (by decide)
    · exact absurd (sectionOf_mem_extremes hm) (by decide)
  · intro hm
    simp only [List.mem_append] at hm
    rcases hm with hm | hm
    · exact absurd (sectionOf_mem_crop hm) (by decide)
    · exact absurd (sectionOf_mem_advice hm) (by decide)

theorem flood_unavailable_degrades_witness :
    ∃ pre post,
      generate_report "R" "2023-01-01" "2023-01-02" none none ⟨0, 0, 0⟩
          (some ⟨none, some ⟨some ["2023-01-01"], none⟩⟩) =
        pre ++ ReportLine.floodUnavailable :: post ∧
      generate_report "R" "2023-01-01" "2023-01-02" none none ⟨0, 0, 0⟩ none =
        pre ++ post ∧
      ReportLine.floodUnavailable ∉ pre ∧ ReportLine.floodUnavailable ∉ post :=
  flood_unavailable_degrades "R" "2023-01-01" "2023-01-02" none none trivial trivial
    ⟨0, 0, 0⟩ ⟨none, some ⟨some ["2023-01-01"], none⟩⟩ ⟨some ["2023-01-01"], none⟩
    rfl (Or.inl rfl)

/-- C6: the header (region and period) and the extreme-event section appear in
the report for every input, while an absent or empty historical table
suppresses every historical-summary line and every crop-recommendation
line. -/
theorem report_header_and_extremes (region s e : String) (w fc : Option DataFrame)
    (hw : WeatherShaped w) (hf : WeatherShaped fc)
    (ex : ExtremeCounts) (fd : Option FloodData)
    (R : List ReportLine) (hR : R = generate_report region s e w fc ex fd) :
    (ReportLine.regionLine region ∈ R ∧ ReportLine.periodLine s e ∈ R ∧
     ReportLine.extremesHeader ∈ R ∧ ReportLine.heatwaveLine ex.heatwave_days ∈ R ∧
     ReportLine.droughtLine ex.drought_days ∈ R ∧
     ReportLine.heavyRainLine ex.flood_days ∈ R) ∧
    ((w = none ∨ ∃ df, w = some df ∧ df.isEmpty = true) →
      ReportLine.histHeader ∉ R ∧ (∀ v, ReportLine.histAvgTemp v ∉ R) ∧
      (∀ v, ReportLine.histTotalRain v ∉ R) ∧ (∀ c, ReportLine.cropRec c ∉ R)) := by
  subst hR
  constructor
  · refine ⟨?_, ?_, ?_, ?_, ?_, ?_⟩
    · exact mem_report_cases.mpr (Or.inl (by simp [headerSection]))
    · exact mem_report_cases.mpr (Or.inl (by simp [headerSection]))
    · exact mem_report_cases.mpr
        (Or.inr (Or.inr (Or.inr (Or.inl (by simp [extremesSection])))))
    · exact mem_report_cases.mpr
        (Or.inr (Or.inr (Or.inr (Or.inl (by simp [extremesSection])))))
    · exact mem_report_cases.mpr
        (Or.inr (Or.inr (Or.inr (Or.inl (by simp [extremesSection])))))
    · exact mem_report_cases.mpr
        (Or.inr (Or.inr (Or.inr (Or.inl (by simp [extremesSection])))))
  · intro hw
    have hhist : histSection w = [] := by
      rcases hw with rfl | ⟨df, rfl, hemp⟩
      · rfl
      · simp [histSection, hemp]
    have hcrop : cropSection w = [] := by
      rcases hw with rfl | ⟨df, rfl, hemp⟩
      · rfl
      · simp [cropSection, hemp]
    refine ⟨?_, fun v => ?_, fun v => ?_, fun c => ?_⟩
    · rw [mem_report_iff_mem_hist ReportLine.histHeader rfl, hhist]
      exact List.not_mem_nil _
    · rw [mem_report_iff_mem_hist (ReportLine.histAvgTemp v) rfl, hhist]
      exact List.not_mem_nil _
    · rw [mem_report_iff_mem_hist (ReportLine.histTotalRain v) rfl, hhist]
      exact List.not_mem_nil _
    · rw [mem_report_iff_mem_crop (ReportLine.cropRec c) rfl, hcrop]
      exact List.not_mem_nil _

theorem report_header_and_extremes_witness :
    ReportLine.regionLine "My Farm" ∈
      generate_report "My Farm" "2022-10-12" "2023-10-12" none none ⟨1, 2, 3⟩ none ∧
    ReportLine.histHeader ∉
      generate_report "My Farm" "2022-10-12" "2023-10-12" none none ⟨1, 2, 3⟩ none :=
  have h := report_header_and_extremes "My Farm" "2022-10-12" "2023-10-12"
    none none trivial trivial ⟨1, 2, 3⟩ none _ rfl
  ⟨h.1.1, (h.2 (Or.inl rfl)).1⟩

/-- C4 counterexample: a present (truthy) weather payload lacking the `daily`
key — such as an API error body — makes the inline normalizer raise a
`KeyError` instead of producing the `None` sentinel. -/
theorem normalizer_missing_daily_raises :
    build_weather_df (some ⟨none, ["error"]⟩) = NormOutcome.raises "KeyError: daily" ∧
    build_weather_df (some ⟨none, ["error"]⟩) ≠ NormOutcome.noneSentinel := by
  constructor <;> decide

/-- C4 amended: normalization yields the `None` sentinel exactly when the
payload is absent or falsy; a truthy payload lacking the `daily` key, or
lacking any of the four expected field arrays under it, raises an uncaught
exception rather than producing the sentinel. -/
theorem normalizer_sentinel_only_when_falsy :
    build_weather_df none = NormOutcome.noneSentinel ∧
    (∀ w : RawWeather, w.truthy = false →
      build_weather_df (some w) = NormOutcome.noneSentinel) ∧
    (∀ w : RawWeather, w.truthy = true → w.daily = none →
      build_weather_df (some w) = NormOutcome.raises "KeyError: daily") ∧
    (∀ (w : RawWeather) (d : RawDaily), w.daily = some d →
      (d.time = none ∨ d.temperature_2m_max = none ∨ d.temperature_2m_min = none ∨
        d.precipitation_sum = none) →
      (build_weather_df (some w)).isRaises = true) := by
  refine ⟨rfl, fun w h => ?_, fun w ht hd => ?_, fun w d hd hmiss => ?_⟩
  · simp [build_weather_df, h]
  · simp [build_weather_df, ht, hd]
  · have ht : w.truthy = true := by simp [RawWeather.truthy, hd]
    obtain ⟨t, tx, tn, pr⟩ := d
    rcases t with _ | ts <;> rcases tx with _ | txs <;> rcases tn with _ | tns <;>
      rcases pr with _ | prs <;>
      simp_all [build_weather_df, NormOutcome.isRaises]

theorem normalizer_sentinel_only_when_falsy_witness :
    build_weather_df (some ⟨none, []⟩) = NormOutcome.noneSentinel ∧
    (build_weather_df (some ⟨some ⟨some ["2023-01-01"], none, none, none⟩,
      []⟩)).isRaises = true :=
  ⟨normalizer_sentinel_only_when_falsy.2.1 ⟨none, []⟩ rfl,
   normalizer_sentinel_only_when_falsy.2.2.2 _ _ rfl (Or.inr (Or.inl rfl))⟩

/-- C7 counterexample: a payload whose field arrays do not match the date
array's length is not reported as the empty sentinel — `pd.DataFrame` raises a
`ValueError` instead. -/
theorem normalizer_mismatch_not_sentinel :
    build_weather_df
        (some ⟨some ⟨some ["2023-01-01"], some [], some [], some []⟩, []⟩) =
      NormOutcome.raises "ValueError: All arrays must be of the same length" ∧
    build_weather_df
        (some ⟨some ⟨some ["2023-01-01"], some [], some [], some []⟩, []⟩) ≠
      NormOutcome.noneSentinel := by
  constructor <;> decide

/-- C7 amended: normalization never silently zips mismatched lengths — a
payload with all field arrays present but not all equal in length to the date
array raises a `ValueError` (it neither produces a table nor the empty
sentinel) — and every table it does produce has all field arrays of identical
length equal to the date array's length. -/
theorem normalizer_alignment (p : Option RawWeather) :
    (∀ (w : RawWeather) (d : RawDaily) (ts : List String) (txs tns prs : List ℚ),
      p = some w → w.daily = some d →
      d.time = some ts → d.temperature_2m_max = some txs →
      d.temperature_2m_min = some tns → d.precipitation_sum = some prs →
      ¬ (txs.length = ts.length ∧ tns.length = ts.length ∧ prs.length = ts.length) →
      build_weather_df p =
        NormOutcome.raises "ValueError: All arrays must be of the same length") ∧
    (∀ df : DataFrame, build_weather_df p = NormOutcome.table df →
      ∀ c ∈ df.cols, c.2.length = df.dates.length) := by
  constructor
  · rintro w d ts txs tns prs rfl hd hts htxs htns hprs hlen
    have htr : w.truthy = true := by simp [RawWeather.truthy, hd]
    simp [build_weather_df, htr, hd, hts, htxs, htns, hprs, hlen]
  · intro df hdf
    rcases p with _ | w
    · simp [build_weather_df] at hdf
    · by_cases htr : w.truthy = true
      · rcases hd : w.daily with _ | d
        · simp [build_weather_df, htr, hd] at hdf
        · obtain ⟨t, tx, tn, pr⟩ := d
          rcases t with _ | ts <;> rcases tx with _ | txs <;> rcases tn with _ | tns <;>
            rcases pr with _ | prs <;>
            simp [build_weather_df, htr, hd] at hdf
          by_cases hlen : txs.length = ts.length ∧ tns.length = ts.length ∧
              prs.length = ts.length
          · rw [if_pos hlen] at hdf
            injection hdf with hdf
            subst hdf
            intro c hc
            simp at hc
            rcases hc with rfl | rfl | rfl
            · exact hlen.1
            · exact hlen.2.1
            · exact hlen.2.2
          · rw [if_neg hlen] at hdf
            simp at hdf
      · simp [build_weather_df, htr] at hdf

theorem normalizer_alignment_witness :
    build_weather_df
        (some ⟨some ⟨some ["2023-01-01"], some [5], some [5, 6], some [7]⟩, []⟩) =
      NormOutcome.raises "ValueError: All arrays must be of the same length" :=
  (normalizer_alignment _).1 _ _ _ _ _ _ rfl rfl rfl rfl rfl rfl (by decide)

/-- No generic flood failure message coincides with the distinguished
no-model message (their texts differ at the first character). -/
theorem no_model_msg_ne_generic (m : String) :
    "No flood model available for this region" ≠ "Flood API failed: " ++ m := by
  obtain ⟨md⟩ := m
  intro h
  have h1 := congrArg (fun s => s.data.take 5) h
  have h2 : (['N', 'o', ' ', 'f', 'l'] : List Char) = ['F', 'l', 'o', 'o', 'd'] := h1
  exact absurd h2 (by decide)

/-- C8: `fetch_flood` converts a 404 response into the distinguished non-fatal
no-model error dict; every other error — a raised request exception, any other
4xx/5xx status, or a malformed JSON body — becomes a generic
"Flood API failed" error dict, whose message never equals the distinguished
one; every outcome is a returned dict, never an exception to the caller. -/
theorem fetch_flood_404_distinguished :
    (∀ body, fetch_flood (.response 404 body) =
      ⟨some "No flood model available for this region", none⟩) ∧
    (∀ msg, ∃ m, fetch_flood (.requestError msg) =
      ⟨some ("Flood API failed: " ++ m), none⟩) ∧
    (∀ status body, status ≠ 404 → 400 ≤ status → status < 600 →
      ∃ m, fetch_flood (.response status body) =
        ⟨some ("Flood API failed: " ++ m), none⟩) ∧
    (∀ status, ¬ (400 ≤ status ∧ status < 600) →
      ∃ m, fetch_flood (.response status none) =
        ⟨some ("Flood API failed: " ++ m), none⟩) ∧
    (∀ m, "No flood model available for this region" ≠ "Flood API failed: " ++ m) := by
  refine ⟨fun body => ?_, fun msg => ⟨msg, rfl⟩,
    fun status body h404 h4 h6 => ?_, fun status hno => ?_, no_model_msg_ne_generic⟩
  · simp [fetch_flood]
  · exact ⟨"HTTPError " ++ toString status, by simp [fetch_flood, h404, h4, h6]⟩
  · have h404 : status ≠ 404 := fun he => hno (he ▸ ⟨by norm_num, by norm_num⟩)
    exact ⟨"JSONDecodeError", by simp [fetch_flood, h404, hno]⟩

theorem fetch_flood_404_distinguished_witness :
    fetch_flood (FloodHttp.response 404 none) =
      ⟨some "No flood model available for this region", none⟩ ∧
    (∃ m, fetch_flood (FloodHttp.response 500 none) =
      ⟨some ("Flood API failed: " ++ m), none⟩) ∧
    "No flood model available for this region" ≠ "Flood API failed: " ++ "Timeout" :=
  ⟨fetch_flood_404_distinguished.1 none,
   fetch_flood_404_distinguished.2.2.1 500 none (by decide) (by decide) (by decide),
   fetch_flood_404_distinguished.2.2.2.2 "Timeout"⟩

end Vriksh
